import Mathlib

/-!
Shallow embedding of the FIDL JSON generator
(src/system/host/fidl/lib/json_generator.cpp).

The generator walks a resolved library and appends JSON text to a single
output buffer while maintaining one mutable indent-level counter.  We model
an emission step as a function from the entry indent level to the pair of
the emitted bytes (a list of characters) and the exit indent level; the
output buffer is append-only in the source, so sequencing two steps
concatenates their outputs.
-/

namespace Fidl

/-- types::PrimitiveSubtype, the twelve scalar kinds dispatched by
PrimitiveSubtypeName. -/
inductive PrimitiveSubtype
| Int8 | Int16 | Int32 | Int64
| Uint8 | Uint16 | Uint32 | Uint64
| Bool | Status | Float32 | Float64
deriving DecidableEq

/-- types::HandleSubtype, the kernel-object kinds dispatched by
HandleSubtypeName. -/
inductive HandleSubtype
| Handle | Process | Thread | Vmo | Channel | Event | Port | Interrupt
| Iomap | Pci | Log | Socket | Resource | Eventpair | Job | Vmar | Fifo
| Hypervisor | Guest | Timer
deriving DecidableEq

/-- types::Nullability, a two-valued indicator. -/
inductive Nullability
| Nullable
| Nonnullable
deriving DecidableEq

/-- raw::Literal::Kind. -/
inductive LiteralKind
| String | Numeric | True | False | Default
deriving DecidableEq

/-- raw::Type::Kind. -/
inductive TypeKind
| Array | Vector | String | Handle | Request | Primitive | Identifier
deriving DecidableEq

/-- raw::Constant::Kind. -/
inductive ConstantKind
| Identifier | Literal
deriving DecidableEq

/-- raw::Identifier: rendered through its location source text. -/
abbrev Identifier := String

/-- raw::CompoundIdentifier: an ordered sequence of identifiers. -/
structure CompoundIdentifier where
  components : List Identifier
deriving DecidableEq

/-- raw::Literal.  String and Numeric carry the raw source-token text that
location.data() returns; the other three kinds carry no payload. -/
inductive Literal
| Str (location : String)
| Numeric (location : String)
| TrueLit
| FalseLit
| DefaultLit
deriving DecidableEq

/-- The kind tag of a raw::Literal. -/
def Literal.kind : Literal → LiteralKind
| .Str _ => .String
| .Numeric _ => .Numeric
| .TrueLit => .True
| .FalseLit => .False
| .DefaultLit => .Default

/-- raw::Constant: a closed variant over Identifier and Literal. -/
inductive Constant
| IdentifierC (identifier : CompoundIdentifier)
| LiteralC (literal : Literal)
deriving DecidableEq

/-- The kind tag of a raw::Constant. -/
def Constant.kind : Constant → ConstantKind
| .IdentifierC _ => .Identifier
| .LiteralC _ => .Literal

/-- raw::Type: the closed variant over the seven type kinds.  Field sets per
variant follow the accesses made by the generator (element_type,
element_count, maybe_element_count, nullability, subtype, identifier). -/
inductive RawType
| Array (element_type : RawType) (element_count : Constant)
| Vector (element_type : RawType) (maybe_element_count : Option Constant)
    (nullability : Nullability)
| StringT (maybe_element_count : Option Constant) (nullability : Nullability)
| Handle (subtype : HandleSubtype) (nullability : Nullability)
| Request (subtype : CompoundIdentifier) (nullability : Nullability)
| Primitive (subtype : PrimitiveSubtype)
| IdentifierT (identifier : CompoundIdentifier) (nullability : Nullability)
deriving DecidableEq

/-- The kind tag of a raw::Type. -/
def RawType.kind : RawType → TypeKind
| .Array _ _ => .Array
| .Vector _ _ _ => .Vector
| .StringT _ _ => .String
| .Handle _ _ => .Handle
| .Request _ _ => .Request
| .Primitive _ => .Primitive
| .IdentifierT _ _ => .Identifier

/-- flat::Name as the generator consumes it: LongName returns the bare
identifier text of the declaration (location.data()). -/
abbrev Name := String

/-- flat::Ordinal: a 32-bit value emitted in decimal. -/
abbrev Ordinal := Nat

/-- flat::Const: name, type, value. -/
structure Const where
  name : Name
  type : RawType
  value : Constant
deriving DecidableEq

/-- flat::Enum::Member: name, value. -/
structure EnumMember where
  name : Name
  value : Constant
deriving DecidableEq

/-- flat::Enum: name, declared underlying type, members. -/
structure Enum where
  name : Name
  type : RawType
  members : List EnumMember
deriving DecidableEq

/-- flat::Interface::Method::Parameter: type, name, offset. -/
structure Parameter where
  type : RawType
  name : Name
  offset : Nat
deriving DecidableEq

/-- flat::Interface::Method: ordinal, name, request and response data. -/
structure Method where
  ordinal : Ordinal
  name : Name
  has_request : Bool
  maybe_request : List Parameter
  maybe_request_size : Nat
  has_response : Bool
  maybe_response : List Parameter
  maybe_response_size : Nat
deriving DecidableEq

/-- flat::Interface: name, methods. -/
structure Interface where
  name : Name
  methods : List Method
deriving DecidableEq

/-- flat::Struct::Member: type, name, optional default value, offset. -/
structure StructMember where
  type : RawType
  name : Name
  maybe_default_value : Option Constant
  offset : Nat
deriving DecidableEq

/-- flat::Struct: name, members, size. -/
structure Struct where
  name : Name
  members : List StructMember
  size : Nat
deriving DecidableEq

/-- flat::Union::Member: type, name, offset. -/
structure UnionMember where
  type : RawType
  name : Name
  offset : Nat
deriving DecidableEq

/-- flat::Union: name, members, size. -/
structure Union where
  name : Name
  members : List UnionMember
  size : Nat
deriving DecidableEq

/-- flat::Library as consumed by ProduceJSON: the library name, the five
declaration collections, and the declaration_order sequence of names. -/
structure Library where
  library_name : String
  const_declarations : List Const
  enum_declarations : List Enum
  interface_declarations : List Interface
  struct_declarations : List Struct
  union_declarations : List Union
  declaration_order : List Name
deriving DecidableEq

/-- PrimitiveSubtypeName: exhaustive switch over the twelve subtypes. -/
def PrimitiveSubtypeName : PrimitiveSubtype → String
| .Int8 => "int8"
| .Int16 => "int16"
| .Int32 => "int32"
| .Int64 => "int64"
| .Uint8 => "uint8"
| .Uint16 => "uint16"
| .Uint32 => "uint32"
| .Uint64 => "uint64"
| .Bool => "bool"
| .Status => "status"
| .Float32 => "float32"
| .Float64 => "float64"

/-- HandleSubtypeName: exhaustive switch over the handle subtypes. -/
def HandleSubtypeName : HandleSubtype → String
| .Handle => "handle"
| .Process => "process"
| .Thread => "thread"
| .Vmo => "vmo"
| .Channel => "channel"
| .Event => "event"
| .Port => "port"
| .Interrupt => "interrupt"
| .Iomap => "iomap"
| .Pci => "pci"
| .Log => "log"
| .Socket => "socket"
| .Resource => "resource"
| .Eventpair => "eventpair"
| .Job => "job"
| .Vmar => "vmar"
| .Fifo => "fifo"
| .Hypervisor => "hypervisor"
| .Guest => "guest"
| .Timer => "timer"

/-- LiteralKindName: exhaustive switch over the literal kinds. -/
def LiteralKindName : LiteralKind → String
| .String => "string"
| .Numeric => "numeric"
| .True => "true"
| .False => "false"
| .Default => "default"

/-- TypeKindName: exhaustive switch over the type kinds. -/
def TypeKindName : TypeKind → String
| .Array => "array"
| .Vector => "vector"
| .String => "string"
| .Handle => "handle"
| .Request => "request"
| .Primitive => "primitive"
| .Identifier => "identifier"

/-- ConstantKindName: exhaustive switch over the constant kinds. -/
def ConstantKindName : ConstantKind → String
| .Identifier => "identifier"
| .Literal => "literal"

/-- An emission step: from the entry indent level to the emitted bytes and
the exit indent level.  The output stream is append-only in the source, so
this pair fully describes one call. -/
abbrev Emit := Int → List Char × Int

/-- Sequencing of two emission steps: outputs concatenate, the indent level
threads through. -/
def eseq (f g : Emit) : Emit := fun i =>
  let p := f i
  let q := g p.2
  (p.1 ++ q.1, q.2)

/-- An emission step that does nothing (an empty switch case). -/
def enil : Emit := fun i => ([], i)

/-- Conditional emission for an optional field: the if (ptr) pattern. -/
def eopt (f : α → Emit) : Option α → Emit
| some x => f x
| none => enil

/-- The two-space indent unit kIndent. -/
def kIndent : List Char := "  ".data

/-- Characters written by the indent loop of EmitNewlineAndIndent for a
given level: the loop runs once per remaining positive level. -/
def indentChars (level : Int) : List Char :=
  (List.replicate level.toNat kIndent).flatten

/-- EmitNewlineAndIndent: a newline then level repetitions of kIndent. -/
def EmitNewlineAndIndent (level : Int) : List Char :=
  '\n' :: indentChars level

/-- EmitBoolean: writes true or false literally. -/
def EmitBoolean (value : Bool) : Emit := fun i =>
  ((if value then "true" else "false").data, i)

/-- The escaping applied by EmitString to one character: a quote becomes
backslash quote, a backslash becomes backslash backslash, every other byte
passes through unchanged. -/
def escapeChar (c : Char) : List Char :=
  if c = '"' then ['\\', '"']
  else if c = '\\' then ['\\', '\\']
  else [c]

/-- The body of EmitString between the surrounding quotes. -/
def escapedChars (s : String) : List Char :=
  (s.data.map escapeChar).flatten

/-- EmitString: wraps the value in double quotes and escapes quote and
backslash characters. -/
def EmitString (value : String) : Emit := fun i =>
  ('"' :: escapedChars value ++ ['"'], i)

/-- EmitLiteral: writes the value verbatim with no quoting or escaping. -/
def EmitLiteral (value : String) : Emit := fun i =>
  (value.data, i)

/-- EmitUint32: decimal text of the value. -/
def EmitUint32 (value : Nat) : Emit := fun i =>
  ((toString value).data, i)

/-- EmitUint64: decimal text of the value. -/
def EmitUint64 (value : Nat) : Emit := fun i =>
  ((toString value).data, i)

/-- EmitNewline. -/
def EmitNewline : Emit := fun i => (['\n'], i)

/-- EmitObjectBegin. -/
def EmitObjectBegin : Emit := fun i => (['\x7b'], i)

/-- EmitObjectSeparator: a comma, then newline and indent at the current
level. -/
def EmitObjectSeparator : Emit := fun i =>
  (',' :: EmitNewlineAndIndent i, i)

/-- EmitObjectEnd. -/
def EmitObjectEnd : Emit := fun i => (['\x7d'], i)

/-- EmitObjectKey: the quoted escaped key followed by a colon and space. -/
def EmitObjectKey (key : String) : Emit := fun i =>
  ((EmitString key i).1 ++ ": ".data, i)

/-- EmitArrayBegin. -/
def EmitArrayBegin : Emit := fun i => (['['], i)

/-- EmitArraySeparator: a comma, then newline and indent at the current
level. -/
def EmitArraySeparator : Emit := fun i =>
  (',' :: EmitNewlineAndIndent i, i)

/-- EmitArrayEnd. -/
def EmitArrayEnd : Emit := fun i => ([']'], i)

/-- Position argument of GenerateObjectMember. -/
inductive Position
| First
| Subsequent
deriving DecidableEq

/-- JSONGenerator::GenerateObjectMember: First increments the indent level
and opens a new line; Subsequent writes a comma separator at the current
level; then the key and the value are emitted. -/
def GenerateObjectMember (key : String) (value : Emit) (position : Position) :
    Emit := fun i =>
  let i1 : Int :=
    match position with
    | .First => i + 1
    | .Subsequent => i
  let pre : List Char :=
    match position with
    | .First => EmitNewlineAndIndent i1
    | .Subsequent => ',' :: EmitNewlineAndIndent i1
  let q := value i1
  (pre ++ (EmitObjectKey key i1).1 ++ q.1, q.2)

/-- JSONGenerator::GenerateObject: emits the open brace, runs the callback,
and if the callback left the indent level above the entry level, decrements
it once and emits a newline and indent before the close brace. -/
def GenerateObject (callback : Emit) : Emit := fun i =>
  let p := callback i
  if p.2 > i then
    ('\x7b' :: p.1 ++ EmitNewlineAndIndent (p.2 - 1) ++ ['\x7d'], p.2 - 1)
  else
    ('\x7b' :: p.1 ++ ['\x7d'], p.2)

/-- The element loop of JSONGenerator::GenerateArray: every element after
the first is preceded by an array separator at the current indent level. -/
def GenerateArrayElems (gen : α → Emit) : List α → Nat → Emit
| [], _ => enil
| x :: xs, idx => fun i =>
  let sep : List Char := if idx = 0 then [] else ',' :: EmitNewlineAndIndent i
  let p := gen x i
  let q := GenerateArrayElems gen xs (idx + 1) p.2
  (sep ++ p.1 ++ q.1, q.2)

/-- JSONGenerator::GenerateArray: an empty collection renders as a bare
bracket pair; a non-empty collection increments the indent level, opens a
line before the first element, separates elements, then decrements the
indent level and opens a line before the closing bracket. -/
def GenerateArray (gen : α → Emit) (collection : List α) : Emit := fun i =>
  match collection with
  | [] => (['[', ']'], i)
  | _ :: _ =>
    let i1 := i + 1
    let p := GenerateArrayElems gen collection 0 i1
    let i2 := p.2 - 1
    ('[' :: EmitNewlineAndIndent i1 ++ p.1 ++ EmitNewlineAndIndent i2 ++ [']'],
      i2)

/-- Generate(types::Nullability): Nullable renders true, Nonnullable
renders false. -/
def GenerateNullability : Nullability → Emit
| .Nullable => EmitBoolean true
| .Nonnullable => EmitBoolean false

/-- Generate(const raw::Identifier&): the identifier source text as an
escaped JSON string. -/
def GenerateIdentifier (value : Identifier) : Emit :=
  EmitString value

/-- Generate(const raw::CompoundIdentifier&): the component identifiers as
a JSON array. -/
def GenerateCompoundIdentifier (value : CompoundIdentifier) : Emit :=
  GenerateArray GenerateIdentifier value.components

/-- Generate(const raw::Literal&): an object whose first member is the kind
tag; a String literal then hand-emits a separator, the value key, and the
raw source token via EmitLiteral; a Numeric literal emits its source token
through the StringView overload (EmitString); the other kinds add no
member. -/
def GenerateLiteral (value : Literal) : Emit :=
  GenerateObject
    (eseq
      (GenerateObjectMember "kind" (EmitString (LiteralKindName value.kind))
        .First)
      (match value with
       | .Str loc =>
           eseq EmitObjectSeparator (eseq (EmitObjectKey "value")
             (EmitLiteral loc))
       | .Numeric loc =>
           GenerateObjectMember "value" (EmitString loc) .Subsequent
       | .TrueLit => enil
       | .FalseLit => enil
       | .DefaultLit => enil))

/-- Generate(const raw::Constant&): an object with the kind tag first, then
the payload member for the variant. -/
def GenerateConstant (value : Constant) : Emit :=
  GenerateObject
    (eseq
      (GenerateObjectMember "kind" (EmitString (ConstantKindName value.kind))
        .First)
      (match value with
       | .IdentifierC id =>
           GenerateObjectMember "identifier" (GenerateCompoundIdentifier id)
             .Subsequent
       | .LiteralC lit =>
           GenerateObjectMember "literal" (GenerateLiteral lit) .Subsequent))

/-- Generate(const raw::Type&): an object with the kind tag first, then the
variant-specific members in source order; optional element counts are
emitted only when present. -/
def GenerateType (value : RawType) : Emit :=
  GenerateObject
    (eseq
      (GenerateObjectMember "kind" (EmitString (TypeKindName value.kind))
        .First)
      (match value with
       | .Array et ec =>
           eseq (GenerateObjectMember "element_type" (GenerateType et)
             .Subsequent)
             (GenerateObjectMember "element_count" (GenerateConstant ec)
               .Subsequent)
       | .Vector et mec nl =>
           eseq (GenerateObjectMember "element_type" (GenerateType et)
             .Subsequent)
             (eseq
               (eopt (fun ec => GenerateObjectMember "maybe_element_count"
                 (GenerateConstant ec) .Subsequent) mec)
               (GenerateObjectMember "nullable" (GenerateNullability nl)
                 .Subsequent))
       | .StringT mec nl =>
           eseq
             (eopt (fun ec => GenerateObjectMember "maybe_element_count"
               (GenerateConstant ec) .Subsequent) mec)
             (GenerateObjectMember "nullable" (GenerateNullability nl)
               .Subsequent)
       | .Handle st nl =>
           eseq (GenerateObjectMember "subtype"
             (EmitString (HandleSubtypeName st)) .Subsequent)
             (GenerateObjectMember "nullable" (GenerateNullability nl)
               .Subsequent)
       | .Request st nl =>
           eseq (GenerateObjectMember "subtype"
             (GenerateCompoundIdentifier st) .Subsequent)
             (GenerateObjectMember "nullable" (GenerateNullability nl)
               .Subsequent)
       | .Primitive st =>
           GenerateObjectMember "subtype"
             (EmitString (PrimitiveSubtypeName st)) .Subsequent
       | .IdentifierT id nl =>
           eseq (GenerateObjectMember "identifier"
             (GenerateCompoundIdentifier id) .Subsequent)
             (GenerateObjectMember "nullable" (GenerateNullability nl)
               .Subsequent)))

/-- Generate(const flat::Ordinal&): the 32-bit value in decimal. -/
def GenerateOrdinal (value : Ordinal) : Emit :=
  EmitUint32 value

/-- Generate(const flat::Name&): the LongName text as an escaped JSON
string. -/
def GenerateName (value : Name) : Emit :=
  EmitString value

/-- Generate(const flat::Const&): name, type, value. -/
def GenerateConst (value : Const) : Emit :=
  GenerateObject
    (eseq (GenerateObjectMember "name" (EmitString value.name) .First)
      (eseq (GenerateObjectMember "type" (GenerateType value.type) .Subsequent)
        (GenerateObjectMember "value" (GenerateConstant value.value)
          .Subsequent)))

/-- Generate(const flat::Enum::Member&): name, value. -/
def GenerateEnumMember (value : EnumMember) : Emit :=
  GenerateObject
    (eseq (GenerateObjectMember "name" (EmitString value.name) .First)
      (GenerateObjectMember "value" (GenerateConstant value.value)
        .Subsequent))

/-- Generate(const flat::Enum&): name, the underlying primitive subtype when
the declared type is primitive, then members. -/
def GenerateEnum (value : Enum) : Emit :=
  GenerateObject
    (eseq (GenerateObjectMember "name" (EmitString value.name) .First)
      (eseq
        (match value.type with
         | .Primitive st =>
             GenerateObjectMember "type"
               (EmitString (PrimitiveSubtypeName st)) .Subsequent
         | _ => enil)
        (GenerateObjectMember "members"
          (GenerateArray GenerateEnumMember value.members) .Subsequent)))

/-- Generate(const flat::Interface::Method::Parameter&): type, name,
offset. -/
def GenerateParameter (value : Parameter) : Emit :=
  GenerateObject
    (eseq (GenerateObjectMember "type" (GenerateType value.type) .First)
      (eseq (GenerateObjectMember "name" (EmitString value.name) .Subsequent)
        (GenerateObjectMember "offset" (EmitUint64 value.offset)
          .Subsequent)))

/-- Generate(const flat::Interface::Method&): ordinal, name, request flag
and conditional request members, response flag and conditional response
members. -/
def GenerateMethod (value : Method) : Emit :=
  GenerateObject
    (eseq (GenerateObjectMember "ordinal" (GenerateOrdinal value.ordinal)
      .First)
      (eseq (GenerateObjectMember "name" (EmitString value.name) .Subsequent)
        (eseq (GenerateObjectMember "has_request"
          (EmitBoolean value.has_request) .Subsequent)
          (eseq
            (if value.has_request then
              eseq (GenerateObjectMember "maybe_request"
                (GenerateArray GenerateParameter value.maybe_request)
                .Subsequent)
                (GenerateObjectMember "maybe_request_size"
                  (EmitUint64 value.maybe_request_size) .Subsequent)
            else enil)
            (eseq (GenerateObjectMember "has_response"
              (EmitBoolean value.has_response) .Subsequent)
              (if value.has_response then
                eseq (GenerateObjectMember "maybe_response"
                  (GenerateArray GenerateParameter value.maybe_response)
                  .Subsequent)
                  (GenerateObjectMember "maybe_response_size"
                    (EmitUint64 value.maybe_response_size) .Subsequent)
              else enil))))))

/-- Generate(const flat::Interface&): name, methods. -/
def GenerateInterface (value : Interface) : Emit :=
  GenerateObject
    (eseq (GenerateObjectMember "name" (EmitString value.name) .First)
      (GenerateObjectMember "methods"
        (GenerateArray GenerateMethod value.methods) .Subsequent))

/-- Generate(const flat::Struct::Member&): type, name, the default value
only when present, offset. -/
def GenerateStructMember (value : StructMember) : Emit :=
  GenerateObject
    (eseq (GenerateObjectMember "type" (GenerateType value.type) .First)
      (eseq (GenerateObjectMember "name" (EmitString value.name) .Subsequent)
        (eseq
          (eopt (fun c => GenerateObjectMember "maybe_default_value"
            (GenerateConstant c) .Subsequent) value.maybe_default_value)
          (GenerateObjectMember "offset" (EmitUint64 value.offset)
            .Subsequent))))

/-- Generate(const flat::Struct&): name, members, size. -/
def GenerateStruct (value : Struct) : Emit :=
  GenerateObject
    (eseq (GenerateObjectMember "name" (EmitString value.name) .First)
      (eseq (GenerateObjectMember "members"
        (GenerateArray GenerateStructMember value.members) .Subsequent)
        (GenerateObjectMember "size" (EmitUint64 value.size) .Subsequent)))

/-- Generate(const flat::Union::Member&): type, name, offset. -/
def GenerateUnionMember (value : UnionMember) : Emit :=
  GenerateObject
    (eseq (GenerateObjectMember "type" (GenerateType value.type) .First)
      (eseq (GenerateObjectMember "name" (EmitString value.name) .Subsequent)
        (GenerateObjectMember "offset" (EmitUint64 value.offset)
          .Subsequent)))

/-- Generate(const flat::Union&): name, members, size. -/
def GenerateUnion (value : Union) : Emit :=
  GenerateObject
    (eseq (GenerateObjectMember "name" (EmitString value.name) .First)
      (eseq (GenerateObjectMember "members"
        (GenerateArray GenerateUnionMember value.members) .Subsequent)
        (GenerateObjectMember "size" (EmitUint64 value.size) .Subsequent)))

/-- JSONGenerator::GenerateDeclarationMapEntry: the first entry increments
the indent level and opens a line, later entries write a separator; then
the LongName key and the kind string. -/
def GenerateDeclarationMapEntry (count : Nat) (name : Name) (decl : String) :
    Emit := fun i =>
  if count = 0 then
    let i1 := i + 1
    (EmitNewlineAndIndent i1 ++ (EmitObjectKey name i1).1
      ++ (EmitString decl i1).1, i1)
  else
    (',' :: EmitNewlineAndIndent i ++ (EmitObjectKey name i).1
      ++ (EmitString decl i).1, i)

/-- The declarations emitted into the final declarations map, one entry per
declaration, in the loop order of ProduceJSON: consts, enums, interfaces,
structs, unions. -/
def DeclarationEntries (lib : Library) : List (Name × String) :=
  lib.const_declarations.map (fun d => (d.name, "const"))
    ++ lib.enum_declarations.map (fun d => (d.name, "enum"))
    ++ lib.interface_declarations.map (fun d => (d.name, "interface"))
    ++ lib.struct_declarations.map (fun d => (d.name, "struct"))
    ++ lib.union_declarations.map (fun d => (d.name, "union"))

/-- The declaration-map loop of ProduceJSON: one GenerateDeclarationMapEntry
call per entry, with the running count threaded through. -/
def GenerateDeclarationMap : List (Name × String) → Nat → Emit
| [], _ => enil
| e :: rest, count =>
  eseq (GenerateDeclarationMapEntry count e.1 e.2)
    (GenerateDeclarationMap rest (count + 1))

/-- JSONGenerator::GenerateEOF. -/
def GenerateEOF : Emit := EmitNewline

/-- JSONGenerator::ProduceJSON as an emission step: the top-level object
with its nine members in source order (the library_dependencies member is
built from an empty collection), followed by the EOF newline. -/
def ProduceJSONEmit (lib : Library) : Emit :=
  eseq
    (GenerateObject
      (eseq (GenerateObjectMember "name" (EmitString lib.library_name) .First)
        (eseq (GenerateObjectMember "library_dependencies"
          (GenerateArray EmitBoolean ([] : List Bool)) .Subsequent)
          (eseq (GenerateObjectMember "const_declarations"
            (GenerateArray GenerateConst lib.const_declarations) .Subsequent)
            (eseq (GenerateObjectMember "enum_declarations"
              (GenerateArray GenerateEnum lib.enum_declarations) .Subsequent)
              (eseq (GenerateObjectMember "interface_declarations"
                (GenerateArray GenerateInterface lib.interface_declarations)
                .Subsequent)
                (eseq (GenerateObjectMember "struct_declarations"
                  (GenerateArray GenerateStruct lib.struct_declarations)
                  .Subsequent)
                  (eseq (GenerateObjectMember "union_declarations"
                    (GenerateArray GenerateUnion lib.union_declarations)
                    .Subsequent)
                    (eseq (GenerateObjectMember "declaration_order"
                      (GenerateArray GenerateName lib.declaration_order)
                      .Subsequent)
                      (eseq EmitObjectSeparator
                        (eseq (EmitObjectKey "declarations")
                          (GenerateObject
                            (GenerateDeclarationMap (DeclarationEntries lib)
                              0)))))))))))))
    GenerateEOF

/-- JSONGenerator::ProduceJSON: the indent level starts at zero and the
buffer is handed to the caller as a string. -/
def ProduceJSON (lib : Library) : String :=
  String.mk ((ProduceJSONEmit lib 0).1)

/-- The bytes contributed by the optional maybe_element_count member of a
Vector or String type: nothing when absent, a separated member when
present. -/
def MaybeElementCountRender (mec : Option Constant) (i : Int) : List Char :=
  match mec with
  | none => []
  | some ec =>
      ',' :: EmitNewlineAndIndent i ++ "\"maybe_element_count\": ".data
        ++ (GenerateConstant ec i).1

/-- The rendering of a JSON array of already-rendered element chunks, as
the structural builder produces it: an empty array is a bare bracket pair;
a non-empty array opens a line at the inner indent level, separates the
chunks with a comma and a newline at the inner level, and closes the
bracket on a line at the entry level. -/
def ArrayRender (chunks : List (List Char)) (i : Int) : List Char :=
  match chunks with
  | [] => ['[', ']']
  | c :: cs =>
      '[' :: EmitNewlineAndIndent (i + 1)
        ++ (c ++ (cs.map (fun d => ',' :: EmitNewlineAndIndent (i + 1) ++ d)).flatten)
        ++ EmitNewlineAndIndent i ++ [']']

/-- The rendering of the declarations map object: an empty map is a bare
brace pair; otherwise the first name-to-kind entry opens a line at the
inner level and each later entry is preceded by a comma separator, with
the closing brace on a line at the entry level. -/
def DeclarationMapRender (entries : List (Name × String)) (i : Int) :
    List Char :=
  match entries with
  | [] => ['\x7b', '\x7d']
  | e :: rest =>
      '\x7b' :: EmitNewlineAndIndent (i + 1)
        ++ (EmitObjectKey e.1 (i + 1)).1 ++ (EmitString e.2 (i + 1)).1
        ++ (rest.map (fun d => ',' :: EmitNewlineAndIndent (i + 1)
            ++ (EmitObjectKey d.1 (i + 1)).1
            ++ (EmitString d.2 (i + 1)).1)).flatten
        ++ EmitNewlineAndIndent i ++ ['\x7d']

/-! Unfolding lemmas for the emission combinators. -/

theorem eseq_fst (f g : Emit) (i : Int) :
    (eseq f g i).1 = (f i).1 ++ (g (f i).2).1 := rfl

theorem eseq_apply (f g : Emit) (i : Int) :
    eseq f g i = ((f i).1 ++ (g (f i).2).1, (g (f i).2).2) := rfl

theorem eseq_snd (f g : Emit) (i : Int) :
    (eseq f g i).2 = (g (f i).2).2 := rfl

theorem enil_apply (i : Int) : enil i = ([], i) := rfl

theorem GenerateObjectMember_first (k : String) (v : Emit) (i : Int) :
    GenerateObjectMember k v .First i
      = (EmitNewlineAndIndent (i + 1) ++ (EmitObjectKey k (i + 1)).1
          ++ (v (i + 1)).1, (v (i + 1)).2) := rfl

theorem GenerateObjectMember_subsequent (k : String) (v : Emit) (i : Int) :
    GenerateObjectMember k v .Subsequent i
      = (',' :: EmitNewlineAndIndent i ++ (EmitObjectKey k i).1 ++ (v i).1,
          (v i).2) := rfl

theorem GenerateObject_of_incr {cb : Emit} {i : Int} (h : (cb i).2 = i + 1) :
    GenerateObject cb i
      = ('\x7b' :: (cb i).1 ++ EmitNewlineAndIndent i ++ ['\x7d'], i) := by
  have hgt : i + 1 > i := by omega
  simp only [GenerateObject, h, hgt, if_true, gt_iff_lt, Int.add_sub_cancel]

theorem GenerateObject_of_same {cb : Emit} {i : Int} (h : (cb i).2 = i) :
    GenerateObject cb i = ('\x7b' :: (cb i).1 ++ ['\x7d'], i) := by
  simp only [GenerateObject, h]
  simp

theorem GenerateObject_snd_of_incr {cb : Emit} {i : Int}
    (h : (cb i).2 = i + 1) : (GenerateObject cb i).2 = i := by
  rw [GenerateObject_of_incr h]

/-! Indent-preservation lemmas: every Emit step of the generator leaves the
indent level where it found it.  These correspond to the balanced
increment/decrement discipline of the source. -/

theorem EmitString_snd (s : String) (i : Int) : (EmitString s i).2 = i := rfl

theorem EmitBoolean_snd (b : Bool) (i : Int) : (EmitBoolean b i).2 = i := rfl

theorem EmitLiteral_snd (s : String) (i : Int) : (EmitLiteral s i).2 = i := rfl

theorem EmitUint32_snd (n : Nat) (i : Int) : (EmitUint32 n i).2 = i := rfl

theorem EmitUint64_snd (n : Nat) (i : Int) : (EmitUint64 n i).2 = i := rfl

theorem EmitObjectKey_snd (k : String) (i : Int) :
    (EmitObjectKey k i).2 = i := rfl

theorem EmitObjectSeparator_snd (i : Int) :
    (EmitObjectSeparator i).2 = i := rfl

theorem GenerateNullability_snd (n : Nullability) (i : Int) :
    (GenerateNullability n i).2 = i := by
  cases n <;> rfl

theorem GenerateArrayElems_snd {α : Type} (gen : α → Emit)
    (hp : ∀ x i, (gen x i).2 = i) (xs : List α) (idx : Nat) (i : Int) :
    (GenerateArrayElems gen xs idx i).2 = i := by
  induction xs generalizing idx i with
  | nil => rfl
  | cons x xs ih => simp [GenerateArrayElems, hp, ih]

theorem GenerateArray_snd {α : Type} (gen : α → Emit)
    (hp : ∀ x i, (gen x i).2 = i) (xs : List α) (i : Int) :
    (GenerateArray gen xs i).2 = i := by
  cases xs with
  | nil => rfl
  | cons x xs =>
      simp [GenerateArray, GenerateArrayElems_snd gen hp]

theorem GenerateIdentifier_snd (v : Identifier) (i : Int) :
    (GenerateIdentifier v i).2 = i := rfl

theorem GenerateCompoundIdentifier_snd (v : CompoundIdentifier) (i : Int) :
    (GenerateCompoundIdentifier v i).2 = i :=
  GenerateArray_snd _ (fun x j => EmitString_snd x j) v.components i

theorem GenerateLiteral_snd (v : Literal) (i : Int) :
    (GenerateLiteral v i).2 = i := by
  cases v <;>
    exact GenerateObject_snd_of_incr (by
      simp [eseq_snd, enil_apply, GenerateObjectMember_first,
        GenerateObjectMember_subsequent, EmitString_snd, EmitLiteral_snd,
        EmitObjectSeparator_snd, EmitObjectKey_snd])

theorem GenerateConstant_snd (v : Constant) (i : Int) :
    (GenerateConstant v i).2 = i := by
  cases v <;>
    exact GenerateObject_snd_of_incr (by
      simp [eseq_snd, GenerateObjectMember_first,
        GenerateObjectMember_subsequent, EmitString_snd,
        GenerateCompoundIdentifier_snd, GenerateLiteral_snd])

theorem GenerateType_snd (t : RawType) (i : Int) :
    (GenerateType t i).2 = i := by
  induction t generalizing i with
  | Array et ec ih =>
      exact GenerateObject_snd_of_incr (by
        simp [eseq_snd, GenerateObjectMember_first,
          GenerateObjectMember_subsequent, EmitString_snd, ih,
          GenerateConstant_snd])
  | Vector et mec nl ih =>
      exact GenerateObject_snd_of_incr (by
        cases mec <;>
          simp [eseq_snd, eopt, enil_apply, GenerateObjectMember_first,
            GenerateObjectMember_subsequent, EmitString_snd, ih,
            GenerateConstant_snd, GenerateNullability_snd])
  | StringT mec nl =>
      exact GenerateObject_snd_of_incr (by
        cases mec <;>
          simp [eseq_snd, eopt, enil_apply, GenerateObjectMember_first,
            GenerateObjectMember_subsequent, EmitString_snd,
            GenerateConstant_snd, GenerateNullability_snd])
  | Handle st nl =>
      exact GenerateObject_snd_of_incr (by
        simp [eseq_snd, GenerateObjectMember_first,
          GenerateObjectMember_subsequent, EmitString_snd,
          GenerateNullability_snd])
  | Request st nl =>
      exact GenerateObject_snd_of_incr (by
        simp [eseq_snd, GenerateObjectMember_first,
          GenerateObjectMember_subsequent, EmitString_snd,
          GenerateCompoundIdentifier_snd, GenerateNullability_snd])
  | Primitive st =>
      exact GenerateObject_snd_of_incr (by
        simp [eseq_snd, GenerateObjectMember_first,
          GenerateObjectMember_subsequent, EmitString_snd])
  | IdentifierT id nl =>
      exact GenerateObject_snd_of_incr (by
        simp [eseq_snd, GenerateObjectMember_first,
          GenerateObjectMember_subsequent, EmitString_snd,
          GenerateCompoundIdentifier_snd, GenerateNullability_snd])

theorem GenerateOrdinal_snd (v : Ordinal) (i : Int) :
    (GenerateOrdinal v i).2 = i := rfl

theorem GenerateName_snd (v : Name) (i : Int) :
    (GenerateName v i).2 = i := rfl

theorem GenerateConst_snd (v : Const) (i : Int) :
    (GenerateConst v i).2 = i :=
  GenerateObject_snd_of_incr (by
    simp [eseq_snd, GenerateObjectMember_first, GenerateObjectMember_subsequent,
      EmitString_snd, GenerateType_snd, GenerateConstant_snd])

theorem GenerateEnumMember_snd (v : EnumMember) (i : Int) :
    (GenerateEnumMember v i).2 = i :=
  GenerateObject_snd_of_incr (by
    simp [eseq_snd, GenerateObjectMember_first, GenerateObjectMember_subsequent,
      EmitString_snd, GenerateConstant_snd])

theorem GenerateEnum_snd (v : Enum) (i : Int) :
    (GenerateEnum v i).2 = i :=
  GenerateObject_snd_of_incr (by
    cases h : v.type <;>
      simp [h, eseq_snd, enil_apply, GenerateObjectMember_first,
        GenerateObjectMember_subsequent, EmitString_snd,
        GenerateArray_snd _ GenerateEnumMember_snd])

theorem GenerateParameter_snd (v : Parameter) (i : Int) :
    (GenerateParameter v i).2 = i :=
  GenerateObject_snd_of_incr (by
    simp [eseq_snd, GenerateObjectMember_first, GenerateObjectMember_subsequent,
      EmitString_snd, GenerateType_snd, EmitUint64_snd])

theorem GenerateMethod_snd (v : Method) (i : Int) :
    (GenerateMethod v i).2 = i :=
  GenerateObject_snd_of_incr (by
    cases hq : v.has_request <;> cases hs : v.has_response <;>
      simp [hq, hs, eseq_snd, enil_apply, GenerateObjectMember_first,
        GenerateObjectMember_subsequent, EmitString_snd, EmitBoolean_snd,
        EmitUint64_snd, GenerateOrdinal_snd,
        GenerateArray_snd _ GenerateParameter_snd])

theorem GenerateInterface_snd (v : Interface) (i : Int) :
    (GenerateInterface v i).2 = i :=
  GenerateObject_snd_of_incr (by
    simp [eseq_snd, GenerateObjectMember_first, GenerateObjectMember_subsequent,
      EmitString_snd, GenerateArray_snd _ GenerateMethod_snd])

theorem GenerateStructMember_snd (v : StructMember) (i : Int) :
    (GenerateStructMember v i).2 = i :=
  GenerateObject_snd_of_incr (by
    cases h : v.maybe_default_value <;>
      simp [h, eseq_snd, eopt, enil_apply, GenerateObjectMember_first,
        GenerateObjectMember_subsequent, EmitString_snd, GenerateType_snd,
        GenerateConstant_snd, EmitUint64_snd])

theorem GenerateStruct_snd (v : Struct) (i : Int) :
    (GenerateStruct v i).2 = i :=
  GenerateObject_snd_of_incr (by
    simp [eseq_snd, GenerateObjectMember_first, GenerateObjectMember_subsequent,
      EmitString_snd, EmitUint64_snd,
      GenerateArray_snd _ GenerateStructMember_snd])

theorem GenerateUnionMember_snd (v : UnionMember) (i : Int) :
    (GenerateUnionMember v i).2 = i :=
  GenerateObject_snd_of_incr (by
    simp [eseq_snd, GenerateObjectMember_first, GenerateObjectMember_subsequent,
      EmitString_snd, GenerateType_snd, EmitUint64_snd])

theorem GenerateUnion_snd (v : Union) (i : Int) :
    (GenerateUnion v i).2 = i :=
  GenerateObject_snd_of_incr (by
    simp [eseq_snd, GenerateObjectMember_first, GenerateObjectMember_subsequent,
      EmitString_snd, EmitUint64_snd,
      GenerateArray_snd _ GenerateUnionMember_snd])

theorem GenerateDeclarationMapEntry_zero (name : Name) (decl : String)
    (i : Int) :
    GenerateDeclarationMapEntry 0 name decl i
      = (EmitNewlineAndIndent (i + 1) ++ (EmitObjectKey name (i + 1)).1
          ++ (EmitString decl (i + 1)).1, i + 1) := rfl

theorem GenerateDeclarationMapEntry_pos (count : Nat) (name : Name)
    (decl : String) (i : Int) (h : count ≠ 0) :
    GenerateDeclarationMapEntry count name decl i
      = (',' :: EmitNewlineAndIndent i ++ (EmitObjectKey name i).1
          ++ (EmitString decl i).1, i) := by
  simp [GenerateDeclarationMapEntry, h]

theorem GenerateDeclarationMap_snd_pos (es : List (Name × String))
    (count : Nat) (i : Int) (h : count ≠ 0) :
    (GenerateDeclarationMap es count i).2 = i := by
  induction es generalizing count i with
  | nil => rfl
  | cons e es ih =>
      simp [GenerateDeclarationMap, eseq_snd,
        GenerateDeclarationMapEntry_pos count e.1 e.2 i h, ih (count + 1)]

theorem GenerateDeclarationMap_snd_zero (es : List (Name × String))
    (i : Int) :
    (GenerateDeclarationMap es 0 i).2 = if es.isEmpty then i else i + 1 := by
  cases es with
  | nil => rfl
  | cons e es =>
      simp [GenerateDeclarationMap, eseq_snd,
        GenerateDeclarationMapEntry_zero,
        GenerateDeclarationMap_snd_pos es 1 (i + 1)]

theorem GenerateDeclarationsObject_snd (es : List (Name × String)) (i : Int) :
    (GenerateObject (GenerateDeclarationMap es 0) i).2 = i := by
  cases hes : es.isEmpty with
  | true =>
      have h : (GenerateDeclarationMap es 0 i).2 = i := by
        rw [GenerateDeclarationMap_snd_zero, hes]; rfl
      rw [GenerateObject_of_same h]
  | false =>
      have h : (GenerateDeclarationMap es 0 i).2 = i + 1 := by
        rw [GenerateDeclarationMap_snd_zero, hes]; rfl
      rw [GenerateObject_of_incr h]

theorem ProduceJSONEmit_snd (lib : Library) (i : Int) :
    (ProduceJSONEmit lib i).2 = i :=
  by
    simp [ProduceJSONEmit, eseq_snd, GenerateObjectMember_first,
      GenerateObjectMember_subsequent, EmitString_snd, EmitObjectKey_snd,
      EmitObjectSeparator_snd, GenerateEOF, EmitNewline,
      GenerateArray_snd _ (fun (b : Bool) j => EmitBoolean_snd b j),
      GenerateArray_snd _ GenerateConst_snd,
      GenerateArray_snd _ GenerateEnum_snd,
      GenerateArray_snd _ GenerateInterface_snd,
      GenerateArray_snd _ GenerateStruct_snd,
      GenerateArray_snd _ GenerateUnion_snd,
      GenerateArray_snd _ GenerateName_snd,
      GenerateDeclarationsObject_snd,
      GenerateObject_snd_of_incr]

/-! Rendering lemmas: the exact bytes produced by the structural builder. -/

theorem GenerateArrayElems_pos {α : Type} (gen : α → Emit)
    (hp : ∀ x i, (gen x i).2 = i) (xs : List α) (idx : Nat) (i : Int)
    (h : idx ≠ 0) :
    (GenerateArrayElems gen xs idx i).1
      = (xs.map (fun x => ',' :: EmitNewlineAndIndent i ++ (gen x i).1)).flatten := by
  induction xs generalizing idx with
  | nil => rfl
  | cons x xs ih =>
      simp [GenerateArrayElems, h, hp, ih (idx + 1)]

theorem GenerateArrayElems_zero_cons {α : Type} (gen : α → Emit)
    (hp : ∀ x i, (gen x i).2 = i) (x : α) (xs : List α) (i : Int) :
    (GenerateArrayElems gen (x :: xs) 0 i).1
      = (gen x i).1
        ++ (xs.map (fun y => ',' :: EmitNewlineAndIndent i ++ (gen y i).1)).flatten := by
  simp [GenerateArrayElems, hp, GenerateArrayElems_pos gen hp xs 1 i]

theorem GenerateArray_nil {α : Type} (gen : α → Emit) (i : Int) :
    GenerateArray gen ([] : List α) i = (['[', ']'], i) := rfl

theorem GenerateArray_cons {α : Type} (gen : α → Emit)
    (hp : ∀ x i, (gen x i).2 = i) (x : α) (xs : List α) (i : Int) :
    GenerateArray gen (x :: xs) i
      = ('[' :: EmitNewlineAndIndent (i + 1)
          ++ ((gen x (i + 1)).1
            ++ (xs.map (fun y =>
                ',' :: EmitNewlineAndIndent (i + 1) ++ (gen y (i + 1)).1)).flatten)
          ++ EmitNewlineAndIndent i ++ [']'], i) := by
  have hsnd : (GenerateArrayElems gen (x :: xs) 0 (i + 1)).2 = i + 1 :=
    GenerateArrayElems_snd gen hp (x :: xs) 0 (i + 1)
  simp [GenerateArray, hsnd, GenerateArrayElems_zero_cons gen hp x xs (i + 1)]

theorem GenerateArray_render {α : Type} (gen : α → Emit)
    (hp : ∀ x i, (gen x i).2 = i) (xs : List α) (i : Int) :
    GenerateArray gen xs i
      = (ArrayRender (xs.map (fun x => (gen x (i + 1)).1)) i, i) := by
  cases xs with
  | nil => rfl
  | cons x xs =>
      rw [GenerateArray_cons gen hp x xs i]
      simp [ArrayRender, List.map_map]
      rfl

/-! Byte-level evaluations of the emitted keys and tag strings. -/

theorem EmitObjectSeparator_fst (i : Int) :
    (EmitObjectSeparator i).1 = ',' :: EmitNewlineAndIndent i := rfl

theorem key_kind (i : Int) :
    (EmitObjectKey "kind" i).1 = "\"kind\": ".data := rfl

theorem key_value (i : Int) :
    (EmitObjectKey "value" i).1 = "\"value\": ".data := rfl

theorem key_element_type (i : Int) :
    (EmitObjectKey "element_type" i).1 = "\"element_type\": ".data := rfl

theorem key_element_count (i : Int) :
    (EmitObjectKey "element_count" i).1 = "\"element_count\": ".data := rfl

theorem key_maybe_element_count (i : Int) :
    (EmitObjectKey "maybe_element_count" i).1
      = "\"maybe_element_count\": ".data := rfl

theorem key_nullable (i : Int) :
    (EmitObjectKey "nullable" i).1 = "\"nullable\": ".data := rfl

theorem key_subtype (i : Int) :
    (EmitObjectKey "subtype" i).1 = "\"subtype\": ".data := rfl

theorem key_identifier (i : Int) :
    (EmitObjectKey "identifier" i).1 = "\"identifier\": ".data := rfl

theorem key_name (i : Int) :
    (EmitObjectKey "name" i).1 = "\"name\": ".data := rfl

theorem key_type (i : Int) :
    (EmitObjectKey "type" i).1 = "\"type\": ".data := rfl

theorem key_offset (i : Int) :
    (EmitObjectKey "offset" i).1 = "\"offset\": ".data := rfl

theorem key_maybe_default_value (i : Int) :
    (EmitObjectKey "maybe_default_value" i).1
      = "\"maybe_default_value\": ".data := rfl

theorem key_library_dependencies (i : Int) :
    (EmitObjectKey "library_dependencies" i).1
      = "\"library_dependencies\": ".data := rfl

theorem key_const_declarations (i : Int) :
    (EmitObjectKey "const_declarations" i).1
      = "\"const_declarations\": ".data := rfl

theorem key_enum_declarations (i : Int) :
    (EmitObjectKey "enum_declarations" i).1
      = "\"enum_declarations\": ".data := rfl

theorem key_interface_declarations (i : Int) :
    (EmitObjectKey "interface_declarations" i).1
      = "\"interface_declarations\": ".data := rfl

theorem key_struct_declarations (i : Int) :
    (EmitObjectKey "struct_declarations" i).1
      = "\"struct_declarations\": ".data := rfl

theorem key_union_declarations (i : Int) :
    (EmitObjectKey "union_declarations" i).1
      = "\"union_declarations\": ".data := rfl

theorem key_declaration_order (i : Int) :
    (EmitObjectKey "declaration_order" i).1
      = "\"declaration_order\": ".data := rfl

theorem key_declarations (i : Int) :
    (EmitObjectKey "declarations" i).1 = "\"declarations\": ".data := rfl

theorem str_vector (i : Int) :
    (EmitString "vector" i).1 = "\"vector\"".data := rfl

theorem str_string (i : Int) :
    (EmitString "string" i).1 = "\"string\"".data := rfl

theorem str_array (i : Int) :
    (EmitString "array" i).1 = "\"array\"".data := rfl

theorem str_handle (i : Int) :
    (EmitString "handle" i).1 = "\"handle\"".data := rfl

theorem str_request (i : Int) :
    (EmitString "request" i).1 = "\"request\"".data := rfl

theorem str_primitive (i : Int) :
    (EmitString "primitive" i).1 = "\"primitive\"".data := rfl

theorem str_identifier (i : Int) :
    (EmitString "identifier" i).1 = "\"identifier\"".data := rfl

theorem bool_true_fst (i : Int) : (EmitBoolean true i).1 = "true".data := rfl

theorem bool_false_fst (i : Int) :
    (EmitBoolean false i).1 = "false".data := rfl

/-- Tag-name strings contain no quote or backslash, so EmitString passes
them through unchanged between the added quotes. -/
theorem escaped_TypeKindName (k : TypeKind) :
    escapedChars (TypeKindName k) = (TypeKindName k).data := by
  cases k <;> rfl

theorem escaped_HandleSubtypeName (s : HandleSubtype) :
    escapedChars (HandleSubtypeName s) = (HandleSubtypeName s).data := by
  cases s <;> rfl

theorem escaped_PrimitiveSubtypeName (s : PrimitiveSubtype) :
    escapedChars (PrimitiveSubtypeName s) = (PrimitiveSubtypeName s).data := by
  cases s <;> rfl

/-! Per-variant renderings of Generate(const raw::Type&). -/

theorem GenerateType_array_render (et : RawType) (ec : Constant) (i : Int) :
    GenerateType (RawType.Array et ec) i
      = ('\x7b' :: EmitNewlineAndIndent (i + 1) ++ "\"kind\": ".data
          ++ "\"array\"".data
          ++ ',' :: EmitNewlineAndIndent (i + 1) ++ "\"element_type\": ".data
          ++ (GenerateType et (i + 1)).1
          ++ ',' :: EmitNewlineAndIndent (i + 1) ++ "\"element_count\": ".data
          ++ (GenerateConstant ec (i + 1)).1
          ++ EmitNewlineAndIndent i ++ ['\x7d'], i) := by
  simp only [GenerateType, RawType.kind, TypeKindName]
  rw [GenerateObject_of_incr (by
    simp [eseq_snd, GenerateObjectMember_first, GenerateObjectMember_subsequent,
      EmitString_snd, GenerateType_snd, GenerateConstant_snd])]
  simp [eseq_fst, eseq_snd, GenerateObjectMember_first,
    GenerateObjectMember_subsequent, EmitString_snd, GenerateType_snd,
    GenerateConstant_snd, key_kind, key_element_type, key_element_count,
    str_array, List.append_assoc]

theorem GenerateType_vector_render (et : RawType) (mec : Option Constant)
    (nb : Nullability) (i : Int) :
    GenerateType (RawType.Vector et mec nb) i
      = ('\x7b' :: EmitNewlineAndIndent (i + 1) ++ "\"kind\": ".data
          ++ "\"vector\"".data
          ++ ',' :: EmitNewlineAndIndent (i + 1) ++ "\"element_type\": ".data
          ++ (GenerateType et (i + 1)).1
          ++ MaybeElementCountRender mec (i + 1)
          ++ ',' :: EmitNewlineAndIndent (i + 1) ++ "\"nullable\": ".data
          ++ (GenerateNullability nb (i + 1)).1
          ++ EmitNewlineAndIndent i ++ ['\x7d'], i) := by
  cases mec with
  | none =>
      simp only [GenerateType, RawType.kind, TypeKindName]
      rw [GenerateObject_of_incr (by
        simp [eseq_snd, eopt, enil_apply, GenerateObjectMember_first,
          GenerateObjectMember_subsequent, EmitString_snd, GenerateType_snd,
          GenerateNullability_snd])]
      simp [eseq_fst, eseq_snd, eopt, enil_apply, GenerateObjectMember_first,
        GenerateObjectMember_subsequent, EmitString_snd, GenerateType_snd,
        GenerateNullability_snd, key_kind, key_element_type, key_nullable,
        str_vector, MaybeElementCountRender, List.append_assoc]
  | some ec =>
      simp only [GenerateType, RawType.kind, TypeKindName]
      rw [GenerateObject_of_incr (by
        simp [eseq_snd, eopt, GenerateObjectMember_first,
          GenerateObjectMember_subsequent, EmitString_snd, GenerateType_snd,
          GenerateConstant_snd, GenerateNullability_snd])]
      simp [eseq_fst, eseq_snd, eopt, GenerateObjectMember_first,
        GenerateObjectMember_subsequent, EmitString_snd, GenerateType_snd,
        GenerateConstant_snd, GenerateNullability_snd, key_kind,
        key_element_type, key_maybe_element_count, key_nullable, str_vector,
        MaybeElementCountRender, List.append_assoc]

theorem GenerateType_string_render (mec : Option Constant) (nb : Nullability)
    (i : Int) :
    GenerateType (RawType.StringT mec nb) i
      = ('\x7b' :: EmitNewlineAndIndent (i + 1) ++ "\"kind\": ".data
          ++ "\"string\"".data
          ++ MaybeElementCountRender mec (i + 1)
          ++ ',' :: EmitNewlineAndIndent (i + 1) ++ "\"nullable\": ".data
          ++ (GenerateNullability nb (i + 1)).1
          ++ EmitNewlineAndIndent i ++ ['\x7d'], i) := by
  cases mec with
  | none =>
      simp only [GenerateType, RawType.kind, TypeKindName]
      rw [GenerateObject_of_incr (by
        simp [eseq_snd, eopt, enil_apply, GenerateObjectMember_first,
          GenerateObjectMember_subsequent, EmitString_snd,
          GenerateNullability_snd])]
      simp [eseq_fst, eseq_snd, eopt, enil_apply, GenerateObjectMember_first,
        GenerateObjectMember_subsequent, EmitString_snd,
        GenerateNullability_snd, key_kind, key_nullable, str_string,
        MaybeElementCountRender, List.append_assoc]
  | some ec =>
      simp only [GenerateType, RawType.kind, TypeKindName]
      rw [GenerateObject_of_incr (by
        simp [eseq_snd, eopt, GenerateObjectMember_first,
          GenerateObjectMember_subsequent, EmitString_snd, GenerateConstant_snd,
          GenerateNullability_snd])]
      simp [eseq_fst, eseq_snd, eopt, GenerateObjectMember_first,
        GenerateObjectMember_subsequent, EmitString_snd, GenerateConstant_snd,
        GenerateNullability_snd, key_kind, key_maybe_element_count,
        key_nullable, str_string, MaybeElementCountRender, List.append_assoc]

theorem esc_handle : escapedChars "handle" = "handle".data := rfl

theorem esc_primitive : escapedChars "primitive" = "primitive".data := rfl

theorem GenerateType_handle_render (st : HandleSubtype) (nb : Nullability)
    (i : Int) :
    GenerateType (RawType.Handle st nb) i
      = ('\x7b' :: EmitNewlineAndIndent (i + 1) ++ "\"kind\": ".data
          ++ "\"handle\"".data
          ++ ',' :: EmitNewlineAndIndent (i + 1) ++ "\"subtype\": ".data
          ++ '"' :: (HandleSubtypeName st).data ++ ['"']
          ++ ',' :: EmitNewlineAndIndent (i + 1) ++ "\"nullable\": ".data
          ++ (GenerateNullability nb (i + 1)).1
          ++ EmitNewlineAndIndent i ++ ['\x7d'], i) := by
  simp only [GenerateType, RawType.kind, TypeKindName]
  rw [GenerateObject_of_incr (by
    simp [eseq_snd, GenerateObjectMember_first, GenerateObjectMember_subsequent,
      EmitString_snd, GenerateNullability_snd])]
  simp [eseq_fst, eseq_snd, GenerateObjectMember_first,
    GenerateObjectMember_subsequent, EmitString_snd, GenerateNullability_snd,
    key_kind, key_subtype, key_nullable, str_handle, EmitString, esc_handle,
    escaped_HandleSubtypeName, List.append_assoc]

theorem GenerateType_request_render (st : CompoundIdentifier)
    (nb : Nullability) (i : Int) :
    GenerateType (RawType.Request st nb) i
      = ('\x7b' :: EmitNewlineAndIndent (i + 1) ++ "\"kind\": ".data
          ++ "\"request\"".data
          ++ ',' :: EmitNewlineAndIndent (i + 1) ++ "\"subtype\": ".data
          ++ (GenerateCompoundIdentifier st (i + 1)).1
          ++ ',' :: EmitNewlineAndIndent (i + 1) ++ "\"nullable\": ".data
          ++ (GenerateNullability nb (i + 1)).1
          ++ EmitNewlineAndIndent i ++ ['\x7d'], i) := by
  simp only [GenerateType, RawType.kind, TypeKindName]
  rw [GenerateObject_of_incr (by
    simp [eseq_snd, GenerateObjectMember_first, GenerateObjectMember_subsequent,
      EmitString_snd, GenerateCompoundIdentifier_snd, GenerateNullability_snd])]
  simp [eseq_fst, eseq_snd, GenerateObjectMember_first,
    GenerateObjectMember_subsequent, EmitString_snd,
    GenerateCompoundIdentifier_snd, GenerateNullability_snd, key_kind,
    key_subtype, key_nullable, str_request, List.append_assoc]

theorem GenerateType_primitive_render (st : PrimitiveSubtype) (i : Int) :
    GenerateType (RawType.Primitive st) i
      = ('\x7b' :: EmitNewlineAndIndent (i + 1) ++ "\"kind\": ".data
          ++ "\"primitive\"".data
          ++ ',' :: EmitNewlineAndIndent (i + 1) ++ "\"subtype\": ".data
          ++ '"' :: (PrimitiveSubtypeName st).data ++ ['"']
          ++ EmitNewlineAndIndent i ++ ['\x7d'], i) := by
  simp only [GenerateType, RawType.kind, TypeKindName]
  rw [GenerateObject_of_incr (by
    simp [eseq_snd, GenerateObjectMember_first, GenerateObjectMember_subsequent,
      EmitString_snd])]
  simp [eseq_fst, eseq_snd, GenerateObjectMember_first,
    GenerateObjectMember_subsequent, EmitString_snd, key_kind, key_subtype,
    str_primitive, EmitString, esc_primitive, escaped_PrimitiveSubtypeName,
    List.append_assoc]

theorem GenerateType_identifier_render (id : CompoundIdentifier)
    (nb : Nullability) (i : Int) :
    GenerateType (RawType.IdentifierT id nb) i
      = ('\x7b' :: EmitNewlineAndIndent (i + 1) ++ "\"kind\": ".data
          ++ "\"identifier\"".data
          ++ ',' :: EmitNewlineAndIndent (i + 1) ++ "\"identifier\": ".data
          ++ (GenerateCompoundIdentifier id (i + 1)).1
          ++ ',' :: EmitNewlineAndIndent (i + 1) ++ "\"nullable\": ".data
          ++ (GenerateNullability nb (i + 1)).1
          ++ EmitNewlineAndIndent i ++ ['\x7d'], i) := by
  simp only [GenerateType, RawType.kind, TypeKindName]
  rw [GenerateObject_of_incr (by
    simp [eseq_snd, GenerateObjectMember_first, GenerateObjectMember_subsequent,
      EmitString_snd, GenerateCompoundIdentifier_snd, GenerateNullability_snd])]
  simp [eseq_fst, eseq_snd, GenerateObjectMember_first,
    GenerateObjectMember_subsequent, EmitString_snd,
    GenerateCompoundIdentifier_snd, GenerateNullability_snd, key_kind,
    key_identifier, key_nullable, str_identifier, List.append_assoc]

theorem GenerateNullability_nullable_fst (i : Int) :
    (GenerateNullability Nullability.Nullable i).1 = "true".data := rfl

theorem GenerateNullability_nonnullable_fst (i : Int) :
    (GenerateNullability Nullability.Nonnullable i).1 = "false".data := rfl

theorem GenerateObject_head (cb : Emit) (i : Int) :
    ∃ r : List Char, (GenerateObject cb i).1 = '\x7b' :: (cb i).1 ++ r := by
  by_cases h : (cb i).2 > i
  · exact ⟨EmitNewlineAndIndent ((cb i).2 - 1) ++ ['\x7d'], by
      simp [GenerateObject, h, List.append_assoc]⟩
  · exact ⟨['\x7d'], by simp [GenerateObject, h]⟩

/-- Every node mapper opens its object with the kind member: the open brace,
a new line at the inner level, the kind key, and the kind value. -/
theorem kind_first_member (v rest : Emit) (i : Int) :
    ∃ r : List Char,
      (GenerateObject (eseq (GenerateObjectMember "kind" v .First) rest) i).1
        = '\x7b' :: EmitNewlineAndIndent (i + 1) ++ "\"kind\": ".data
            ++ (v (i + 1)).1 ++ r := by
  obtain ⟨r, hr⟩ :=
    GenerateObject_head (eseq (GenerateObjectMember "kind" v .First) rest) i
  refine ⟨(rest ((v (i + 1)).2)).1 ++ r, ?_⟩
  rw [hr]
  simp [eseq_fst, GenerateObjectMember_first, key_kind, List.append_assoc]

/-- C1 (counterexample): the claim renders the value member of a String
literal as the JSON-escaped form of its source text, with source text
quote a backslash quote b quote; the generator does not produce that. -/
theorem C1_counterexample :
    (GenerateLiteral (Literal.Str "\"a\\\"b\"") 0).1
      ≠ '\x7b' :: EmitNewlineAndIndent 1 ++ "\"kind\": ".data
          ++ "\"string\"".data
          ++ ',' :: EmitNewlineAndIndent 1 ++ "\"value\": ".data
          ++ (EmitString "\"a\\\"b\"" 1).1
          ++ EmitNewlineAndIndent 0 ++ ['\x7d'] := by
  decide

/-- C1 (amended): for every String literal the serialized value member is
the raw source text written verbatim by EmitLiteral, with no escaping and
no added quotes; in particular the source text quote a backslash quote b
quote appears in the output byte for byte. -/
theorem C1_string_literal_value_verbatim (loc : String) (i : Int) :
    GenerateLiteral (Literal.Str loc) i
      = ('\x7b' :: EmitNewlineAndIndent (i + 1) ++ "\"kind\": ".data
          ++ "\"string\"".data
          ++ ',' :: EmitNewlineAndIndent (i + 1) ++ "\"value\": ".data
          ++ loc.data
          ++ EmitNewlineAndIndent i ++ ['\x7d'], i) := by
  simp only [GenerateLiteral, Literal.kind, LiteralKindName]
  rw [GenerateObject_of_incr (by
    simp [eseq_snd, GenerateObjectMember_first, EmitString_snd,
      EmitObjectSeparator_snd, EmitObjectKey_snd, EmitLiteral_snd])]
  simp [eseq_fst, eseq_snd, GenerateObjectMember_first, EmitString_snd,
    EmitObjectSeparator_fst, EmitObjectSeparator_snd, EmitObjectKey_snd,
    key_kind, key_value, str_string, EmitLiteral, List.append_assoc]

theorem GenerateNullability_fst (nb : Nullability) (j : Int) :
    (GenerateNullability nb j).1
      = (if nb = Nullability.Nullable then "true".data else "false".data) := by
  cases nb <;> rfl

/-- C6: a Vector type that is nullable and has no element-count bound
renders as exactly the three members kind, element_type, nullable in that
order, with maybe_element_count absent; and for every closed-variant node
(Type, Literal and Constant) the first emitted member is the kind string
naming the variant tag, whose text is lowercase. -/
theorem C6_vector_render_and_kind_tag :
    (∀ (et : RawType) (i : Int),
      GenerateType (RawType.Vector et none Nullability.Nullable) i
        = ('\x7b' :: EmitNewlineAndIndent (i + 1) ++ "\"kind\": ".data
            ++ "\"vector\"".data
            ++ ',' :: EmitNewlineAndIndent (i + 1) ++ "\"element_type\": ".data
            ++ (GenerateType et (i + 1)).1
            ++ ',' :: EmitNewlineAndIndent (i + 1) ++ "\"nullable\": ".data
            ++ "true".data
            ++ EmitNewlineAndIndent i ++ ['\x7d'], i))
    ∧ (∀ (t : RawType) (i : Int), ∃ r : List Char,
        (GenerateType t i).1
          = '\x7b' :: EmitNewlineAndIndent (i + 1) ++ "\"kind\": ".data
              ++ (EmitString (TypeKindName t.kind) (i + 1)).1 ++ r)
    ∧ (∀ (l : Literal) (i : Int), ∃ r : List Char,
        (GenerateLiteral l i).1
          = '\x7b' :: EmitNewlineAndIndent (i + 1) ++ "\"kind\": ".data
              ++ (EmitString (LiteralKindName l.kind) (i + 1)).1 ++ r)
    ∧ (∀ (c : Constant) (i : Int), ∃ r : List Char,
        (GenerateConstant c i).1
          = '\x7b' :: EmitNewlineAndIndent (i + 1) ++ "\"kind\": ".data
              ++ (EmitString (ConstantKindName c.kind) (i + 1)).1 ++ r)
    ∧ (∀ k : TypeKind,
        (TypeKindName k).data.all (fun c => c.isLower) = true)
    ∧ (∀ k : LiteralKind,
        (LiteralKindName k).data.all (fun c => c.isLower) = true)
    ∧ (∀ k : ConstantKind,
        (ConstantKindName k).data.all (fun c => c.isLower) = true) := by
  refine ⟨?_, ?_, ?_, ?_, ?_, ?_, ?_⟩
  · intro et i
    rw [GenerateType_vector_render]
    simp [MaybeElementCountRender, GenerateNullability_nullable_fst,
      List.append_assoc]
  · intro t i
    cases t <;>
      (simp only [GenerateType]; exact kind_first_member _ _ i)
  · intro l i
    simp only [GenerateLiteral]
    exact kind_first_member _ _ i
  · intro c i
    simp only [GenerateConstant]
    exact kind_first_member _ _ i
  · intro k
    cases k <;> decide
  · intro k
    cases k <;> decide
  · intro k
    cases k <;> decide

/-- C7: every Type variant except Array and Primitive emits a nullable
member whose value is the boolean true exactly for a nullable type and
false for a non-nullable one; Array and Primitive render with no nullable
member of their own. -/
theorem C7_nullable_member_presence :
    (∀ (nb : Nullability) (j : Int),
      (GenerateNullability nb j).1
        = (if nb = Nullability.Nullable then "true".data else "false".data))
    ∧ (∀ (et : RawType) (mec : Option Constant) (nb : Nullability) (i : Int),
        ∃ pre : List Char,
        (GenerateType (RawType.Vector et mec nb) i).1
          = pre ++ ',' :: EmitNewlineAndIndent (i + 1) ++ "\"nullable\": ".data
              ++ (if nb = Nullability.Nullable then "true".data
                  else "false".data)
              ++ EmitNewlineAndIndent i ++ ['\x7d'])
    ∧ (∀ (mec : Option Constant) (nb : Nullability) (i : Int),
        ∃ pre : List Char,
        (GenerateType (RawType.StringT mec nb) i).1
          = pre ++ ',' :: EmitNewlineAndIndent (i + 1) ++ "\"nullable\": ".data
              ++ (if nb = Nullability.Nullable then "true".data
                  else "false".data)
              ++ EmitNewlineAndIndent i ++ ['\x7d'])
    ∧ (∀ (st : HandleSubtype) (nb : Nullability) (i : Int),
        ∃ pre : List Char,
        (GenerateType (RawType.Handle st nb) i).1
          = pre ++ ',' :: EmitNewlineAndIndent (i + 1) ++ "\"nullable\": ".data
              ++ (if nb = Nullability.Nullable then "true".data
                  else "false".data)
              ++ EmitNewlineAndIndent i ++ ['\x7d'])
    ∧ (∀ (st : CompoundIdentifier) (nb : Nullability) (i : Int),
        ∃ pre : List Char,
        (GenerateType (RawType.Request st nb) i).1
          = pre ++ ',' :: EmitNewlineAndIndent (i + 1) ++ "\"nullable\": ".data
              ++ (if nb = Nullability.Nullable then "true".data
                  else "false".data)
              ++ EmitNewlineAndIndent i ++ ['\x7d'])
    ∧ (∀ (id : CompoundIdentifier) (nb : Nullability) (i : Int),
        ∃ pre : List Char,
        (GenerateType (RawType.IdentifierT id nb) i).1
          = pre ++ ',' :: EmitNewlineAndIndent (i + 1) ++ "\"nullable\": ".data
              ++ (if nb = Nullability.Nullable then "true".data
                  else "false".data)
              ++ EmitNewlineAndIndent i ++ ['\x7d'])
    ∧ (∀ (et : RawType) (ec : Constant) (i : Int),
        (GenerateType (RawType.Array et ec) i).1
          = '\x7b' :: EmitNewlineAndIndent (i + 1) ++ "\"kind\": ".data
              ++ "\"array\"".data
              ++ ',' :: EmitNewlineAndIndent (i + 1) ++ "\"element_type\": ".data
              ++ (GenerateType et (i + 1)).1
              ++ ',' :: EmitNewlineAndIndent (i + 1)
              ++ "\"element_count\": ".data
              ++ (GenerateConstant ec (i + 1)).1
              ++ EmitNewlineAndIndent i ++ ['\x7d'])
    ∧ (∀ (st : PrimitiveSubtype) (i : Int),
        (GenerateType (RawType.Primitive st) i).1
          = '\x7b' :: EmitNewlineAndIndent (i + 1) ++ "\"kind\": ".data
              ++ "\"primitive\"".data
              ++ ',' :: EmitNewlineAndIndent (i + 1) ++ "\"subtype\": ".data
              ++ '"' :: (PrimitiveSubtypeName st).data ++ ['"']
              ++ EmitNewlineAndIndent i ++ ['\x7d']) := by
  refine ⟨GenerateNullability_fst, ?_, ?_, ?_, ?_, ?_, ?_, ?_⟩
  · intro et mec nb i
    refine ⟨'\x7b' :: EmitNewlineAndIndent (i + 1) ++ "\"kind\": ".data
      ++ "\"vector\"".data
      ++ ',' :: EmitNewlineAndIndent (i + 1) ++ "\"element_type\": ".data
      ++ (GenerateType et (i + 1)).1
      ++ MaybeElementCountRender mec (i + 1), ?_⟩
    rw [GenerateType_vector_render]
    simp [GenerateNullability_fst, List.append_assoc]
  · intro mec nb i
    refine ⟨'\x7b' :: EmitNewlineAndIndent (i + 1) ++ "\"kind\": ".data
      ++ "\"string\"".data ++ MaybeElementCountRender mec (i + 1), ?_⟩
    rw [GenerateType_string_render]
    simp [GenerateNullability_fst, List.append_assoc]
  · intro st nb i
    refine ⟨'\x7b' :: EmitNewlineAndIndent (i + 1) ++ "\"kind\": ".data
      ++ "\"handle\"".data
      ++ ',' :: EmitNewlineAndIndent (i + 1) ++ "\"subtype\": ".data
      ++ '"' :: (HandleSubtypeName st).data ++ ['"'], ?_⟩
    rw [GenerateType_handle_render]
    simp [GenerateNullability_fst, List.append_assoc]
  · intro st nb i
    refine ⟨'\x7b' :: EmitNewlineAndIndent (i + 1) ++ "\"kind\": ".data
      ++ "\"request\"".data
      ++ ',' :: EmitNewlineAndIndent (i + 1) ++ "\"subtype\": ".data
      ++ (GenerateCompoundIdentifier st (i + 1)).1, ?_⟩
    rw [GenerateType_request_render]
    simp [GenerateNullability_fst, List.append_assoc]
  · intro id nb i
    refine ⟨'\x7b' :: EmitNewlineAndIndent (i + 1) ++ "\"kind\": ".data
      ++ "\"identifier\"".data
      ++ ',' :: EmitNewlineAndIndent (i + 1) ++ "\"identifier\": ".data
      ++ (GenerateCompoundIdentifier id (i + 1)).1, ?_⟩
    rw [GenerateType_identifier_render]
    simp [GenerateNullability_fst, List.append_assoc]
  · intro et ec i
    rw [GenerateType_array_render]
  · intro st i
    rw [GenerateType_primitive_render]

theorem EmitUint64_fst (n : Nat) (i : Int) :
    (EmitUint64 n i).1 = (toString n).data := rfl

/-- C4: a Struct member with no default value renders as an object with
exactly the three members type, name, offset in that order; one with a
default value renders exactly four members, with maybe_default_value
between name and offset; an absent default contributes no bytes at all. -/
theorem C4_struct_member_keys :
    (∀ (t : RawType) (n : Name) (off : Nat) (i : Int),
      GenerateStructMember ⟨t, n, none, off⟩ i
        = ('\x7b' :: EmitNewlineAndIndent (i + 1) ++ "\"type\": ".data
            ++ (GenerateType t (i + 1)).1
            ++ ',' :: EmitNewlineAndIndent (i + 1) ++ "\"name\": ".data
            ++ (EmitString n (i + 1)).1
            ++ ',' :: EmitNewlineAndIndent (i + 1) ++ "\"offset\": ".data
            ++ (toString off).data
            ++ EmitNewlineAndIndent i ++ ['\x7d'], i))
    ∧ (∀ (t : RawType) (n : Name) (c : Constant) (off : Nat) (i : Int),
      GenerateStructMember ⟨t, n, some c, off⟩ i
        = ('\x7b' :: EmitNewlineAndIndent (i + 1) ++ "\"type\": ".data
            ++ (GenerateType t (i + 1)).1
            ++ ',' :: EmitNewlineAndIndent (i + 1) ++ "\"name\": ".data
            ++ (EmitString n (i + 1)).1
            ++ ',' :: EmitNewlineAndIndent (i + 1)
            ++ "\"maybe_default_value\": ".data
            ++ (GenerateConstant c (i + 1)).1
            ++ ',' :: EmitNewlineAndIndent (i + 1) ++ "\"offset\": ".data
            ++ (toString off).data
            ++ EmitNewlineAndIndent i ++ ['\x7d'], i)) := by
  constructor
  · intro t n off i
    simp only [GenerateStructMember]
    rw [GenerateObject_of_incr (by
      simp [eseq_snd, eopt, enil_apply, GenerateObjectMember_first,
        GenerateObjectMember_subsequent, EmitString_snd, GenerateType_snd,
        EmitUint64_snd])]
    simp [eseq_fst, eseq_snd, eopt, enil_apply, GenerateObjectMember_first,
      GenerateObjectMember_subsequent, EmitString_snd, GenerateType_snd,
      EmitUint64_snd, EmitUint64_fst, key_type, key_name, key_offset,
      List.append_assoc]
  · intro t n c off i
    simp only [GenerateStructMember]
    rw [GenerateObject_of_incr (by
      simp [eseq_snd, eopt, GenerateObjectMember_first,
        GenerateObjectMember_subsequent, EmitString_snd, GenerateType_snd,
        GenerateConstant_snd, EmitUint64_snd])]
    simp [eseq_fst, eseq_snd, eopt, GenerateObjectMember_first,
      GenerateObjectMember_subsequent, EmitString_snd, GenerateType_snd,
      GenerateConstant_snd, EmitUint64_snd, EmitUint64_fst, key_type,
      key_name, key_maybe_default_value, key_offset, List.append_assoc]

/-- C10: a CompoundIdentifier serializes as a JSON array with one quoted
escaped string per component, in sequence order, under the array rendering
rule, not as a single dotted string. -/
theorem C10_compound_identifier_as_array (ci : CompoundIdentifier) (i : Int) :
    GenerateCompoundIdentifier ci i
      = (ArrayRender (ci.components.map (fun c => (EmitString c (i + 1)).1)) i,
          i) := by
  simp only [GenerateCompoundIdentifier]
  rw [GenerateArray_render GenerateIdentifier
    (fun x j => EmitString_snd x j) ci.components i]
  simp only [GenerateIdentifier]

theorem GenerateObject_shape (cb : Emit) (i : Int) :
    ∃ r : List Char, (GenerateObject cb i).1 = '\x7b' :: r ++ ['\x7d'] := by
  by_cases h : (cb i).2 > i
  · exact ⟨(cb i).1 ++ EmitNewlineAndIndent ((cb i).2 - 1), by
      simp [GenerateObject, h, List.append_assoc]⟩
  · exact ⟨(cb i).1, by simp [GenerateObject, h]⟩

/-- C9: the five kind-name dispatches cover their closed tag sets totally,
each tag mapping to its fixed name, and every node of a closed variant
serializes to one complete brace-delimited object; in the embedding a tag
outside the closed set is unrepresentable, so no error branch exists to
reach. -/
theorem C9_exhaustive_dispatch :
    (∀ s : PrimitiveSubtype, PrimitiveSubtypeName s ∈
      ["int8", "int16", "int32", "int64", "uint8", "uint16", "uint32",
        "uint64", "bool", "status", "float32", "float64"])
    ∧ (∀ s : HandleSubtype, HandleSubtypeName s ∈
      ["handle", "process", "thread", "vmo", "channel", "event", "port",
        "interrupt", "iomap", "pci", "log", "socket", "resource",
        "eventpair", "job", "vmar", "fifo", "hypervisor", "guest", "timer"])
    ∧ (∀ k : LiteralKind, LiteralKindName k ∈
      ["string", "numeric", "true", "false", "default"])
    ∧ (∀ k : TypeKind, TypeKindName k ∈
      ["array", "vector", "string", "handle", "request", "primitive",
        "identifier"])
    ∧ (∀ k : ConstantKind, ConstantKindName k ∈ ["identifier", "literal"])
    ∧ (∀ (l : Literal) (i : Int), ∃ r : List Char,
        (GenerateLiteral l i).1 = '\x7b' :: r ++ ['\x7d'])
    ∧ (∀ (t : RawType) (i : Int), ∃ r : List Char,
        (GenerateType t i).1 = '\x7b' :: r ++ ['\x7d'])
    ∧ (∀ (c : Constant) (i : Int), ∃ r : List Char,
        (GenerateConstant c i).1 = '\x7b' :: r ++ ['\x7d']) := by
  refine ⟨?_, ?_, ?_, ?_, ?_, ?_, ?_, ?_⟩
  · intro s; cases s <;> decide
  · intro s; cases s <;> decide
  · intro k; cases k <;> decide
  · intro k; cases k <;> decide
  · intro k; cases k <;> decide
  · intro l i
    simp only [GenerateLiteral]
    exact GenerateObject_shape _ i
  · intro t i
    cases t <;> (simp only [GenerateType]; exact GenerateObject_shape _ i)
  · intro c i
    simp only [GenerateConstant]
    exact GenerateObject_shape _ i

/-- C5: every node serializer, and the whole document serializer, returns
the indent-level counter to its entry value, including the nodes whose
optional members are skipped; a complete serialization therefore starts
and ends at indent level zero. -/
theorem C5_indent_balanced :
    (∀ (t : RawType) (i : Int), (GenerateType t i).2 = i)
    ∧ (∀ (l : Literal) (i : Int), (GenerateLiteral l i).2 = i)
    ∧ (∀ (c : Constant) (i : Int), (GenerateConstant c i).2 = i)
    ∧ (∀ (ci : CompoundIdentifier) (i : Int),
        (GenerateCompoundIdentifier ci i).2 = i)
    ∧ (∀ (m : StructMember) (i : Int), (GenerateStructMember m i).2 = i)
    ∧ (∀ (m : UnionMember) (i : Int), (GenerateUnionMember m i).2 = i)
    ∧ (∀ (m : EnumMember) (i : Int), (GenerateEnumMember m i).2 = i)
    ∧ (∀ (p : Parameter) (i : Int), (GenerateParameter p i).2 = i)
    ∧ (∀ (m : Method) (i : Int), (GenerateMethod m i).2 = i)
    ∧ (∀ (c : Const) (i : Int), (GenerateConst c i).2 = i)
    ∧ (∀ (e : Enum) (i : Int), (GenerateEnum e i).2 = i)
    ∧ (∀ (f : Interface) (i : Int), (GenerateInterface f i).2 = i)
    ∧ (∀ (s : Struct) (i : Int), (GenerateStruct s i).2 = i)
    ∧ (∀ (u : Union) (i : Int), (GenerateUnion u i).2 = i)
    ∧ (∀ (lib : Library) (i : Int), (ProduceJSONEmit lib i).2 = i)
    ∧ (∀ lib : Library, (ProduceJSONEmit lib 0).2 = 0) :=
  ⟨GenerateType_snd, GenerateLiteral_snd, GenerateConstant_snd,
    GenerateCompoundIdentifier_snd, GenerateStructMember_snd,
    GenerateUnionMember_snd, GenerateEnumMember_snd, GenerateParameter_snd,
    GenerateMethod_snd, GenerateConst_snd, GenerateEnum_snd,
    GenerateInterface_snd, GenerateStruct_snd, GenerateUnion_snd,
    ProduceJSONEmit_snd, fun lib => ProduceJSONEmit_snd lib 0⟩

theorem GenerateObject_tail (cb : Emit) (i : Int) :
    ∃ p : List Char, (GenerateObject cb i).1 = p ++ ['\x7d'] := by
  by_cases h : (cb i).2 > i
  · exact ⟨'\x7b' :: (cb i).1 ++ EmitNewlineAndIndent ((cb i).2 - 1), by
      simp [GenerateObject, h, List.append_assoc]⟩
  · exact ⟨'\x7b' :: (cb i).1, by simp [GenerateObject, h]⟩

theorem eseq_object_eof_tail (cb : Emit) (i : Int) :
    ∃ pre : List Char,
      (eseq (GenerateObject cb) GenerateEOF i).1 = pre ++ ['\x7d', '\n'] := by
  obtain ⟨p, hp⟩ := GenerateObject_tail cb i
  exact ⟨p, by simp [eseq_fst, GenerateEOF, EmitNewline, hp,
    List.append_assoc]⟩

/-- C8: the produced document ends with the closing brace of the top-level
object followed by exactly one newline, with no further characters. -/
theorem C8_trailing_newline (lib : Library) :
    ∃ pre : List Char, (ProduceJSON lib).data = pre ++ ['\x7d', '\n'] := by
  unfold ProduceJSON
  simp only [show ∀ l : List Char, (String.mk l).data = l from fun _ => rfl]
  unfold ProduceJSONEmit
  exact eseq_object_eof_tail _ 0

set_option maxRecDepth 8192 in
/-- C2: the produced document is one top-level object whose members appear
in exactly the order name, library_dependencies, const_declarations,
enum_declarations, interface_declarations, struct_declarations,
union_declarations, declaration_order, declarations, and the
library_dependencies member is always the empty array, for every input
library. -/
theorem C2_top_level_member_order (lib : Library) :
    ∃ vName v3 v4 v5 v6 v7 v8 v9 : List Char,
      ProduceJSON lib = String.mk (
        '\x7b' :: EmitNewlineAndIndent 1 ++ "\"name\": ".data ++ vName
        ++ ',' :: EmitNewlineAndIndent 1 ++ "\"library_dependencies\": ".data
        ++ "[]".data
        ++ ',' :: EmitNewlineAndIndent 1 ++ "\"const_declarations\": ".data
        ++ v3
        ++ ',' :: EmitNewlineAndIndent 1 ++ "\"enum_declarations\": ".data
        ++ v4
        ++ ',' :: EmitNewlineAndIndent 1
        ++ "\"interface_declarations\": ".data ++ v5
        ++ ',' :: EmitNewlineAndIndent 1 ++ "\"struct_declarations\": ".data
        ++ v6
        ++ ',' :: EmitNewlineAndIndent 1 ++ "\"union_declarations\": ".data
        ++ v7
        ++ ',' :: EmitNewlineAndIndent 1 ++ "\"declaration_order\": ".data
        ++ v8
        ++ ',' :: EmitNewlineAndIndent 1 ++ "\"declarations\": ".data ++ v9
        ++ EmitNewlineAndIndent 0 ++ ['\x7d', '\n']) := by
  refine ⟨(EmitString lib.library_name 1).1,
    (GenerateArray GenerateConst lib.const_declarations 1).1,
    (GenerateArray GenerateEnum lib.enum_declarations 1).1,
    (GenerateArray GenerateInterface lib.interface_declarations 1).1,
    (GenerateArray GenerateStruct lib.struct_declarations 1).1,
    (GenerateArray GenerateUnion lib.union_declarations 1).1,
    (GenerateArray GenerateName lib.declaration_order 1).1,
    (GenerateObject (GenerateDeclarationMap (DeclarationEntries lib) 0) 1).1,
    ?_⟩
  unfold ProduceJSON ProduceJSONEmit
  apply congrArg
  rw [eseq_fst]
  rw [GenerateObject_of_incr (by
    simp [eseq_snd, GenerateObjectMember_first, GenerateObjectMember_subsequent,
      EmitString_snd, EmitObjectKey_snd, EmitObjectSeparator_snd,
      GenerateArray_snd _ (fun (b : Bool) j => EmitBoolean_snd b j),
      GenerateArray_snd _ GenerateConst_snd,
      GenerateArray_snd _ GenerateEnum_snd,
      GenerateArray_snd _ GenerateInterface_snd,
      GenerateArray_snd _ GenerateStruct_snd,
      GenerateArray_snd _ GenerateUnion_snd,
      GenerateArray_snd _ GenerateName_snd,
      GenerateDeclarationsObject_snd])]
  simp [eseq_fst, eseq_snd, GenerateObjectMember_first,
    GenerateObjectMember_subsequent, EmitString_snd, EmitObjectKey_snd,
    EmitObjectSeparator_fst, EmitObjectSeparator_snd, GenerateEOF,
    EmitNewline, GenerateArray_nil,
    GenerateArray_snd _ (fun (b : Bool) j => EmitBoolean_snd b j),
    GenerateArray_snd _ GenerateConst_snd,
    GenerateArray_snd _ GenerateEnum_snd,
    GenerateArray_snd _ GenerateInterface_snd,
    GenerateArray_snd _ GenerateStruct_snd,
    GenerateArray_snd _ GenerateUnion_snd,
    GenerateArray_snd _ GenerateName_snd,
    GenerateDeclarationsObject_snd, key_name, key_library_dependencies,
    key_const_declarations, key_enum_declarations,
    key_interface_declarations, key_struct_declarations,
    key_union_declarations, key_declaration_order, key_declarations,
    List.append_assoc]

theorem GenerateDeclarationMap_pos_render (es : List (Name × String))
    (count : Nat) (i : Int) (h : count ≠ 0) :
    GenerateDeclarationMap es count i
      = ((es.map (fun e => ',' :: EmitNewlineAndIndent i
          ++ (EmitObjectKey e.1 i).1 ++ (EmitString e.2 i).1)).flatten, i) := by
  induction es generalizing count with
  | nil => simp [GenerateDeclarationMap, enil_apply]
  | cons e es ih =>
      simp [GenerateDeclarationMap, eseq_apply,
        GenerateDeclarationMapEntry_pos count e.1 e.2 i h,
        ih (count + 1) (by omega), List.append_assoc]

theorem declarations_object_render (es : List (Name × String)) (i : Int) :
    GenerateObject (GenerateDeclarationMap es 0) i
      = (DeclarationMapRender es i, i) := by
  cases es with
  | nil =>
      rw [GenerateObject_of_same (by rfl)]
      rfl
  | cons e rest =>
      have hsnd : (GenerateDeclarationMap (e :: rest) 0 i).2 = i + 1 := by
        simp [GenerateDeclarationMap, eseq_snd,
          GenerateDeclarationMapEntry_zero,
          GenerateDeclarationMap_snd_pos rest 1 (i + 1) (by omega)]
      rw [GenerateObject_of_incr hsnd]
      simp [GenerateDeclarationMap, eseq_fst, eseq_snd,
        GenerateDeclarationMapEntry_zero,
        GenerateDeclarationMap_pos_render rest 1 (i + 1) (by omega),
        DeclarationMapRender, List.append_assoc]

/-- C3: the declarations member is an object holding one name-to-kind
entry per declaration, in the concatenation order consts, enums,
interfaces, structs, unions, with the kind rendered as its lowercase name;
in particular a library with one Const named A and one Enum named B
renders its declarations object with the entry A const before the entry
B enum. -/
theorem C3_declarations_map :
    (∀ (lib : Library) (i : Int),
      GenerateObject (GenerateDeclarationMap (DeclarationEntries lib) 0) i
        = (DeclarationMapRender
            (lib.const_declarations.map (fun d => (d.name, "const"))
              ++ lib.enum_declarations.map (fun d => (d.name, "enum"))
              ++ lib.interface_declarations.map
                  (fun d => (d.name, "interface"))
              ++ lib.struct_declarations.map (fun d => (d.name, "struct"))
              ++ lib.union_declarations.map (fun d => (d.name, "union"))) i,
            i))
    ∧ (GenerateObject (GenerateDeclarationMap (DeclarationEntries
        ⟨"lib",
          [⟨"A", RawType.Primitive PrimitiveSubtype.Int8,
            Constant.LiteralC Literal.TrueLit⟩],
          [⟨"B", RawType.Primitive PrimitiveSubtype.Int8, []⟩],
          [], [], [], []⟩) 0) 0).1
        = "\x7b\n  \"A\": \"const\",\n  \"B\": \"enum\"\n\x7d".data := by
  constructor
  · intro lib i
    exact declarations_object_render (DeclarationEntries lib) i
  · decide

end Fidl
